import Mathlib

/-!
Verification development for the GeoJSON viewer plugin
(`src/geojson_viewer.py`). The definitions below are a shallow embedding
of the sync/diff/codec logic of the plugin:

* `convert_variant` embeds `GeoJsonViewer.convert_variant` (lines 302-308);
* `serialize_feature` embeds `GeoJsonViewer._serialize_feature`
  (lines 345-357) and `SyncWorker_serialize_feature` embeds
  `SyncWorker._serialize_feature` (lines 60-71);
* `Diff` and the `on...` handlers embed the three tracking containers
  `_edited_features`, `_added_features`, `_deleted_ids` and the lambdas
  connected in `connect_sync_signal` (lines 255-260);
* `sync_layer_to_server` embeds `GeoJsonViewer.sync_layer_to_server`
  (lines 310-343), with the HTTP response supplied as an explicit input;
* `get_geojson_hash` embeds lines 262-270, with the hash function and the
  network outcome supplied as explicit inputs;
* `reload_layer` embeds lines 230-253, with the project layer list and the
  stored hash map gathered in a `ProjectState`;
* `load_bookmarks` embeds the entry loop of lines 381-392.

Python sets are modelled as duplicate-free lists maintained by
`insertSet`; Python dicts as association lists maintained by
`updateAssoc` (insertion order preserved, an existing key keeps its
position, exactly like a Python dict). Exceptions that the source code
catches locally (inside `get_geojson_hash`, `create_layer_from_content`,
`convert_variant`) are modelled by `Option`/`Bool` results, so the
embedded functions are total exactly where the Python functions cannot
propagate an exception.
-/

/-- Feature identifiers (QGIS feature ids). -/
abbrev Fid := Nat

/-- A Python-level property value, after the `QVariant`/`toPyObject`
unwrapping of lines 303-304 (which is the identity on the underlying
value). `pother ok s` is any other non-null object: `ok = true` when
`str(val)` succeeds and returns `s`, `ok = false` when `str(val)`
raises. -/
inductive PyVal where
  | pstr (s : String)
  | pbool (b : Bool)
  | pnum (n : Int)
  | pnone
  | pdate (y m d : Nat)
  | pother (ok : Bool) (s : String)
deriving DecidableEq

/-- A JSON-safe primitive, the codomain of the value coercion. -/
inductive JVal where
  | jstr (s : String)
  | jbool (b : Bool)
  | jnum (n : Int)
  | jnull
deriving DecidableEq

/-- Two-digit zero padding, as Qt renders month and day in "yyyy-MM-dd". -/
def pad2 (n : Nat) : String :=
  if n < 10 then "0" ++ toString n else toString n

/-- Four-digit zero padding, as Qt renders the year in "yyyy-MM-dd". -/
def pad4 (n : Nat) : String :=
  if n < 10 then "000" ++ toString n
  else if n < 100 then "00" ++ toString n
  else if n < 1000 then "0" ++ toString n
  else toString n

/-- `QDate.toString("yyyy-MM-dd")` (line 305). -/
def dateToString (y m d : Nat) : String :=
  pad4 y ++ "-" ++ pad2 m ++ "-" ++ pad2 d

/-- `GeoJsonViewer.convert_variant` (lines 302-308): `QDate` values render
as "yyyy-MM-dd"; `str`, numbers, `bool` and `None` pass through; any other
value is stringified via `str(val)`, and if that raises the result is
`None`. -/
def convert_variant : PyVal → JVal
  | PyVal.pdate y m d => JVal.jstr (dateToString y m d)
  | PyVal.pstr s => JVal.jstr s
  | PyVal.pnum n => JVal.jnum n
  | PyVal.pbool b => JVal.jbool b
  | PyVal.pnone => JVal.jnull
  | PyVal.pother true s => JVal.jstr s
  | PyVal.pother false _ => JVal.jnull

/-- An in-memory feature: the display string of its geometry wkb type
(`QgsWkbTypes.displayString(geometry.wkbType())`, line 348), the JSON text
of its geometry (`geometry.asJson()`), and its attributes zipped with the
layer field names (lines 347, 349-352). -/
structure Feature where
  geomType : String
  geomJson : String
  attrs : List (String × PyVal)
deriving DecidableEq

/-- A serialized wire feature: the dictionary built by the serializers,
with the `__mode` discriminator added afterwards by the sync loop
(`none` until set). -/
structure WireFeature where
  ftype : String
  geometry : String
  properties : List (String × JVal)
  mode : Option String
deriving DecidableEq

/-- `GeoJsonViewer._serialize_feature` (lines 345-357): note that the
"type" field is set to the geometry type display string `geom_type`,
not to the literal "Feature". -/
def serialize_feature (feat : Feature) : WireFeature :=
  { ftype := feat.geomType
    geometry := feat.geomJson
    properties := feat.attrs.map (fun p => (p.1, convert_variant p.2))
    mode := none }

/-- `SyncWorker._serialize_feature` (lines 60-71), the parallel serializer
in the same source file: its "type" field is the literal "Feature". -/
def SyncWorker_serialize_feature (feat : Feature) : WireFeature :=
  { ftype := "Feature"
    geometry := feat.geomJson
    properties := feat.attrs.map (fun p => (p.1, convert_variant p.2))
    mode := none }

/-- Add an element to a Python-set-as-list: no effect when present. -/
def insertSet (l : List Fid) (x : Fid) : List Fid :=
  if x ∈ l then l else l ++ [x]

/-- `a | b` on Python sets-as-lists. -/
def unionSet (a b : List Fid) : List Fid :=
  b.foldl insertSet a

/-- `dict.update({k: v})` on an association list: an existing key keeps
its position and gets the new value, a new key is appended. -/
def updateAssoc {α β : Type} [DecidableEq α] :
    List (α × β) → α → β → List (α × β)
  | [], k, v => [(k, v)]
  | p :: rest, k, v =>
      if p.1 = k then (k, v) :: rest else p :: updateAssoc rest k v

/-- `dict.get(k)` on an association list. -/
def lookupAssoc {α β : Type} [DecidableEq α] :
    List (α × β) → α → Option β
  | [], _ => none
  | p :: rest, k => if p.1 = k then some p.2 else lookupAssoc rest k

/-- The three tracking containers of the plugin instance
(`_edited_features`, `_added_features`, `_deleted_ids`, lines 90-92).
`added` maps a feature id to the snapshot `layer.getFeature(fid)` taken
at the moment the `featureAdded` signal fired (line 256). -/
structure Diff where
  edited : List Fid
  added : List (Fid × Feature)
  deleted : List Fid
deriving DecidableEq

/-- The state of the containers right after `__init__`. -/
def Diff.empty : Diff :=
  { edited := [], added := [], deleted := [] }

/-- Handler connected to `featureAdded` (line 256): stores the
addition-time snapshot. -/
def onFeatureAdded (d : Diff) (fid : Fid) (snap : Feature) : Diff :=
  { d with added := updateAssoc d.added fid snap }

/-- Handler connected to `featureDeleted` (line 257). -/
def onFeatureDeleted (d : Diff) (fid : Fid) : Diff :=
  { d with deleted := insertSet d.deleted fid }

/-- Handler connected to `geometryChanged` (line 258). -/
def onGeometryChanged (d : Diff) (fid : Fid) : Diff :=
  { d with edited := insertSet d.edited fid }

/-- Handler connected to `attributeValueChanged` (line 259). -/
def onAttributeChanged (d : Diff) (fid : Fid) : Diff :=
  { d with edited := insertSet d.edited fid }

/-- An edit notification, tagged with the name of the layer whose signal
fired. In the source every layer's signals are connected to the same
plugin-level containers, so the handlers below ignore the layer tag
exactly as the lambdas of lines 256-259 do. -/
inductive EditEvent where
  | added (layerName : String) (fid : Fid) (snap : Feature)
  | deleted (layerName : String) (fid : Fid)
  | geometryChanged (layerName : String) (fid : Fid)
  | attributeChanged (layerName : String) (fid : Fid)
deriving DecidableEq

/-- Dispatch of one edit notification to the connected handlers. -/
def applyEvent (d : Diff) : EditEvent → Diff
  | EditEvent.added _ fid snap => onFeatureAdded d fid snap
  | EditEvent.deleted _ fid => onFeatureDeleted d fid
  | EditEvent.geometryChanged _ fid => onGeometryChanged d fid
  | EditEvent.attributeChanged _ fid => onAttributeChanged d fid

/-- A sequence of edit notifications, in arrival order. -/
def applyEvents (d : Diff) (es : List EditEvent) : Diff :=
  es.foldl applyEvent d

/-- Whether an event is one of the two edit notifications (geometry or
attribute change). -/
def isEdit : EditEvent → Bool
  | EditEvent.geometryChanged _ _ => true
  | EditEvent.attributeChanged _ _ => true
  | _ => false

/-- The outcome of the HTTP POST issued by the sync: a response with a
status code and a body, or an exception raised by `requests.post`.
The body is `some (some m)` when it parses as JSON with a "message"
field `m`, `some none` when it parses without one, and `none` when
`response.json()` raises. -/
inductive HttpResponse where
  | resp (status : Nat) (body : Option (Option String))
  | exn (msg : String)
deriving DecidableEq

/-- The headers of the upload POST (line 330): the Authorization header
is always present, whatever the token. -/
def postHeaders (token : String) : List (String × String) :=
  [("Authorization", "Bearer " ++ token), ("Content-Type", "application/json")]

/-- The headers of the poll GET (line 264): the Authorization header is
present only when the token is non-empty. -/
def getHeaders (token : String) : List (String × String) :=
  if token = "" then [] else [("Authorization", "Bearer " ++ token)]

/-- `self._edited_features | set(self._added_features.keys())`
(line 312). -/
def changedIds (d : Diff) : List Fid :=
  unionSet d.edited (d.added.map Prod.fst)

/-- The feature list built by the two loops of lines 317-327: every
edited id serialized from the current layer state with mode "update",
then every added id serialized from its stored snapshot with mode
"add". Deleted ids contribute nothing. -/
def buildFeatures (layer : Fid → Feature) (d : Diff) : List WireFeature :=
  d.edited.map (fun fid => { serialize_feature (layer fid) with mode := some "update" })
    ++ d.added.map (fun p => { serialize_feature p.2 with mode := some "add" })

/-- The JSON payload of line 329. -/
structure Payload where
  ptype : String
  features : List WireFeature
deriving DecidableEq

/-- The POST request issued by the sync (headers and body). -/
structure SyncRequest where
  headers : List (String × String)
  payload : Payload
deriving DecidableEq

/-- Observable outcome of one call to `sync_layer_to_server`: the state
of the tracking containers afterwards, the POST that was issued (`none`
when the call returned before any network activity), and the message
pushed to the message bar with its severity. -/
structure SyncOutcome where
  diff : Diff
  request : Option SyncRequest
  severity : String
  message : String
deriving DecidableEq

/-- `GeoJsonViewer.sync_layer_to_server` (lines 310-343). `layer` is the
`layer.getFeature` lookup used by the edited-id loop; `net` is the
outcome of `requests.post`. On a 200 response all three containers are
cleared (lines 334-336) before the body is parsed, so a body that fails
to parse still leaves the containers empty and lands in the `except`
branch. On any other status, or an exception, the containers are left
as they were. -/
def sync_layer_to_server (layer : Fid → Feature) (d : Diff) (token : String)
    (net : HttpResponse) : SyncOutcome :=
  if changedIds d = [] then
    { diff := d, request := none, severity := "info", message := "No changes to sync." }
  else
    let req : SyncRequest :=
      { headers := postHeaders token
        payload := { ptype := "FeatureCollection", features := buildFeatures layer d } }
    match net with
    | HttpResponse.resp code body =>
        if code = 200 then
          match body with
          | some msg =>
              { diff := Diff.empty, request := some req, severity := "success"
                message := msg.getD "Synced successfully." }
          | none =>
              { diff := Diff.empty, request := some req, severity := "critical"
                message := "Sync error: response body is not JSON" }
        else
          { diff := d, request := some req, severity := "critical"
            message := "Sync failed: " ++ toString code }
    | HttpResponse.exn m =>
        { diff := d, request := some req, severity := "critical"
          message := "Sync error: " ++ m }

/-- The headers of the POST a sync outcome issued, `[]` when no POST was
issued. -/
def requestHeaders (o : SyncOutcome) : List (String × String) :=
  match o.request with
  | some r => r.headers
  | none => []

/-- The payload of the POST a sync outcome issued. -/
def requestPayload (o : SyncOutcome) : Option Payload :=
  o.request.map (fun r => r.payload)

/-- The outcome of the GET of `get_geojson_hash`: a response (status and
raw bytes) or an exception. -/
inductive GetNet where
  | resp (status : Nat) (content : List Nat)
  | exn
deriving DecidableEq

/-- `GeoJsonViewer.get_geojson_hash` (lines 262-270): any non-200
status or exception yields `(None, None)`; a 200 response yields the
digest of the raw bytes together with the bytes. `hashFn` stands for
`hashlib.md5(...).hexdigest()`. -/
def get_geojson_hash (hashFn : List Nat → Nat) (net : GetNet) :
    Option (Nat × List Nat) :=
  match net with
  | GetNet.resp code content =>
      if code = 200 then some (hashFn content, content) else none
  | GetNet.exn => none

/-- The plugin-visible project state touched by the poll path: the names
of the layers currently in the QGIS project (in order) and the
`layer_hashes` map (line 86). -/
structure ProjectState where
  projectLayers : List String
  layer_hashes : List (String × Nat)
deriving DecidableEq

/-- Removal of the first project layer with a given name
(lines 244-247: iterate, remove the first match, break). -/
def removeFirst : List String → String → List String
  | [], _ => []
  | x :: rest, n => if x = n then rest else x :: removeFirst rest n

/-- Outcome of one call to `reload_layer`: the project state afterwards
and the message pushed to the message bar. -/
structure ReloadOutcome where
  state : ProjectState
  severity : String
  message : String
deriving DecidableEq

/-- `GeoJsonViewer.reload_layer` (lines 230-253). `fetch` is the result
of `get_geojson_hash`; `decode content` tells whether
`create_layer_from_content` returns a valid layer for those bytes (that
function catches its own exceptions and returns `None` on any failure,
lines 272-300). The same-hash short-circuit of line 237 fires only when
a layer with the given name is present in the project AND the stored
hash equals the fetched hash. -/
def reload_layer (decode : List Nat → Bool) (st : ProjectState) (name : String)
    (fetch : Option (Nat × List Nat)) : ReloadOutcome :=
  match fetch with
  | none =>
      { state := st, severity := "critical"
        message := "Failed to check updates for layer \x27" ++ name ++ "\x27." }
  | some (hashVal, content) =>
      if name ∈ st.projectLayers ∧ lookupAssoc st.layer_hashes name = some hashVal then
        { state := st, severity := "info"
          message := "Layer \x27" ++ name ++ "\x27 no changes found." }
      else if decode content then
        { state :=
            { projectLayers :=
                (if name ∈ st.projectLayers then removeFirst st.projectLayers name
                 else st.projectLayers) ++ [name]
              layer_hashes := updateAssoc st.layer_hashes name hashVal }
          severity := "info"
          message := "Layer \x27" ++ name ++ "\x27 updated." }
      else
        { state := st, severity := "critical"
          message := "Failed to reload layer \x27" ++ name ++ "\x27." }

/-- One persisted registry entry (`self.layers[name] = {url, token}`). -/
structure BookmarkEntry where
  name : String
  url : String
  token : String
deriving DecidableEq

/-- The body of the per-entry loop of `load_bookmarks` (lines 383-392):
fetch, and on success store the hash and attach the layer when it
decodes to a valid one. `if hash_val and content` in the source also
skips an empty 200 body, because empty bytes are falsy in Python. -/
def load_entry (fetch : String → Option (Nat × List Nat)) (decode : List Nat → Bool)
    (st : ProjectState) (e : BookmarkEntry) : ProjectState :=
  match fetch e.url with
  | none => st
  | some (hashVal, content) =>
      if content = [] then st
      else
        let st1 : ProjectState :=
          { st with layer_hashes := updateAssoc st.layer_hashes e.name hashVal }
        if decode content then
          { st1 with projectLayers := st1.projectLayers ++ [e.name] }
        else st1

/-- The entry loop of `GeoJsonViewer.load_bookmarks` (lines 381-392):
every persisted entry is processed in order; the second component of the
result records, in order, the entries for which the
fetch+decode+attach sequence was attempted. -/
def load_bookmarks (fetch : String → Option (Nat × List Nat)) (decode : List Nat → Bool)
    (st : ProjectState) (entries : List BookmarkEntry) :
    ProjectState × List String :=
  entries.foldl
    (fun acc e => (load_entry fetch decode acc.1 e, acc.2 ++ [e.name])) (st, [])

/-- A concrete feature used by the closed witness theorems. -/
def featW : Feature :=
  { geomType := "Point", geomJson := "gj", attrs := [("name", PyVal.pstr "Lake A")] }

/-- A concrete non-empty diff used by the closed witness theorems. -/
def dW : Diff :=
  { edited := [1], added := [(42, featW)], deleted := [3] }

/-- A project state holding a stored hash for "rivers" while no layer of
that name is present in the project. -/
def stC2 : ProjectState :=
  { projectLayers := [], layer_hashes := [("rivers", 7)] }

/-- A project state holding a stored hash for "rivers" with the layer
present in the project. -/
def stC2p : ProjectState :=
  { projectLayers := ["rivers"], layer_hashes := [("rivers", 7)] }

/-! ## Helper lemmas -/

theorem lookupAssoc_updateAssoc_self {α β : Type} [DecidableEq α]
    (l : List (α × β)) (k : α) (v : β) :
    lookupAssoc (updateAssoc l k v) k = some v := by
  induction l with
  | nil => simp [updateAssoc, lookupAssoc]
  | cons p rest ih =>
      by_cases h : p.1 = k <;> simp [updateAssoc, lookupAssoc, h, ih]

theorem lookupAssoc_eq_none_iff {α β : Type} [DecidableEq α]
    (l : List (α × β)) (k : α) :
    lookupAssoc l k = none ↔ k ∉ l.map Prod.fst := by
  induction l with
  | nil => simp [lookupAssoc]
  | cons p rest ih =>
      by_cases h : p.1 = k <;> simp [lookupAssoc, h, ih]
      intro hk
      exact fun hkk => h hkk.symm

theorem updateAssoc_map_fst_of_lookup_none {α β : Type} [DecidableEq α]
    (l : List (α × β)) (k : α) (v : β) (h : lookupAssoc l k = none) :
    (updateAssoc l k v).map Prod.fst = l.map Prod.fst ++ [k] := by
  induction l with
  | nil => simp [updateAssoc]
  | cons p rest ih =>
      simp only [lookupAssoc] at h
      by_cases hp : p.1 = k
      · simp [hp] at h
      · simp [hp] at h
        simp [updateAssoc, hp, ih h]

theorem lookupAssoc_mem {α β : Type} [DecidableEq α]
    (l : List (α × β)) (k : α) (v : β) (h : lookupAssoc l k = some v) :
    (k, v) ∈ l := by
  induction l with
  | nil => simp [lookupAssoc] at h
  | cons p rest ih =>
      simp only [lookupAssoc] at h
      by_cases hp : p.1 = k
      · simp [hp] at h
        have hpkv : p = (k, v) := by cases p; simp_all
        rw [hpkv]
        exact List.mem_cons_self _ _
      · simp [hp] at h
        exact List.mem_cons_of_mem p (ih h)

theorem applyEvent_added_of_isEdit (d : Diff) (e : EditEvent)
    (h : isEdit e = true) : (applyEvent d e).added = d.added := by
  cases e <;> simp [isEdit] at h <;>
    simp [applyEvent, onGeometryChanged, onAttributeChanged]

theorem applyEvents_added_of_isEdit (es : List EditEvent) :
    ∀ d : Diff, (∀ e ∈ es, isEdit e = true) →
      (applyEvents d es).added = d.added := by
  induction es with
  | nil => intro d _; rfl
  | cons e rest ih =>
      intro d h
      have he : isEdit e = true := h e (List.mem_cons_self e rest)
      have hr : ∀ e2 ∈ rest, isEdit e2 = true :=
        fun e2 h2 => h e2 (List.mem_cons_of_mem e h2)
      calc (applyEvents d (e :: rest)).added
          = (applyEvents (applyEvent d e) rest).added := rfl
        _ = (applyEvent d e).added := ih (applyEvent d e) hr
        _ = d.added := applyEvent_added_of_isEdit d e he

theorem mem_insertSet_self (l : List Fid) (x : Fid) : x ∈ insertSet l x := by
  by_cases h : x ∈ l <;> simp [insertSet, h]

theorem mem_insertSet_of_mem (l : List Fid) (x y : Fid) (h : y ∈ l) :
    y ∈ insertSet l x := by
  by_cases hx : x ∈ l <;> simp [insertSet, hx, h]

theorem mem_foldl_insertSet_of_mem (b : List Fid) :
    ∀ a : List Fid, ∀ x : Fid, x ∈ a → x ∈ b.foldl insertSet a := by
  induction b with
  | nil => intro a x h; simpa using h
  | cons y rest ih =>
      intro a x h
      exact ih (insertSet a y) x (mem_insertSet_of_mem a y x h)

theorem mem_unionSet_right (a b : List Fid) (x : Fid) (h : x ∈ b) :
    x ∈ unionSet a b := by
  induction b generalizing a with
  | nil => simp at h
  | cons y rest ih =>
      rcases List.mem_cons.mp h with hx | hx
      · subst hx
        exact mem_foldl_insertSet_of_mem rest (insertSet a x) x
          (mem_insertSet_self a x)
      · exact ih (insertSet a y) hx

theorem load_bookmarks_foldl (fetch : String → Option (Nat × List Nat))
    (decode : List Nat → Bool) (entries : List BookmarkEntry) :
    ∀ (st : ProjectState) (acc : List String),
      entries.foldl
          (fun a e => (load_entry fetch decode a.1 e, a.2 ++ [e.name])) (st, acc)
        = (entries.foldl (load_entry fetch decode) st,
           acc ++ entries.map (fun e => e.name)) := by
  induction entries with
  | nil => intro st acc; simp
  | cons e rest ih =>
      intro st acc
      simp only [List.foldl_cons, List.map_cons]
      rw [ih]
      simp

/-! ## Claim theorems -/

/-- Claim C1: for every upload, if the POST returns status 200 the entire
diff (edited set, added map, deleted set) becomes empty; on any other
status or on an exception the diff is left bit-for-bit equal to its
pre-call state — never partially cleared. -/
theorem claim_C1_upload_atomic (layer : Fid → Feature) (d : Diff) (token : String)
    (hnz : changedIds d ≠ []) :
    (∀ body,
        (sync_layer_to_server layer d token (HttpResponse.resp 200 body)).diff = Diff.empty)
  ∧ (∀ code body, code ≠ 200 →
        (sync_layer_to_server layer d token (HttpResponse.resp code body)).diff = d)
  ∧ (∀ m, (sync_layer_to_server layer d token (HttpResponse.exn m)).diff = d) := by
  refine ⟨fun body => ?_, fun code body hc => ?_, fun m => ?_⟩
  · cases body <;> simp [sync_layer_to_server, hnz]
  · simp [sync_layer_to_server, hnz, hc]
  · simp [sync_layer_to_server, hnz]

/-- Claim C1, witness: the atomicity theorem applied at a concrete
non-empty diff, for a 200 response, a 500 response and an exception. -/
theorem claim_C1_witness :
    (sync_layer_to_server (fun _ => featW) dW ""
        (HttpResponse.resp 200 (some (some "ok")))).diff = Diff.empty
  ∧ (sync_layer_to_server (fun _ => featW) dW "" (HttpResponse.resp 500 none)).diff = dW
  ∧ (sync_layer_to_server (fun _ => featW) dW "" (HttpResponse.exn "boom")).diff = dW :=
  ⟨(claim_C1_upload_atomic (fun _ => featW) dW "" (by decide)).1 (some (some "ok")),
   (claim_C1_upload_atomic (fun _ => featW) dW "" (by decide)).2.1 500 none (by decide),
   (claim_C1_upload_atomic (fun _ => featW) dW "" (by decide)).2.2 "boom"⟩

/-- Claim C7: when the union of the edited set and the added keys is
empty, the sync reports "No changes to sync." and returns with no
network request and the whole state (including the deleted set)
unchanged. -/
theorem claim_C7_no_changes (layer : Fid → Feature) (d : Diff) (token : String)
    (net : HttpResponse) (h : changedIds d = []) :
    sync_layer_to_server layer d token net =
      { diff := d, request := none, severity := "info",
        message := "No changes to sync." } := by
  simp [sync_layer_to_server, h]

/-- Claim C7, witness: a diff with only a deleted id triggers the
no-changes early return, leaving the deleted set intact. -/
theorem claim_C7_witness :
    sync_layer_to_server (fun _ => featW)
        { edited := [], added := [], deleted := [9] } ""
        (HttpResponse.resp 200 (some (some "ok"))) =
      { diff := { edited := [], added := [], deleted := [9] }, request := none,
        severity := "info", message := "No changes to sync." } :=
  claim_C7_no_changes (fun _ => featW)
    { edited := [], added := [], deleted := [9] } ""
    (HttpResponse.resp 200 (some (some "ok"))) (by decide)

/-- Claim C4: the property-value coercion is total; strings, booleans,
numbers and null pass through unchanged, dates render as a
four-digit-year "YYYY-MM-DD" string, every other non-null value is
stringified, and a failing stringification yields null. -/
theorem claim_C4_convert_total :
    (∀ s, convert_variant (PyVal.pstr s) = JVal.jstr s)
  ∧ (∀ b, convert_variant (PyVal.pbool b) = JVal.jbool b)
  ∧ (∀ n, convert_variant (PyVal.pnum n) = JVal.jnum n)
  ∧ convert_variant PyVal.pnone = JVal.jnull
  ∧ (∀ y m d, convert_variant (PyVal.pdate y m d) = JVal.jstr (dateToString y m d))
  ∧ dateToString 2024 3 7 = "2024-03-07"
  ∧ (∀ s, convert_variant (PyVal.pother true s) = JVal.jstr s)
  ∧ (∀ s, convert_variant (PyVal.pother false s) = JVal.jnull) :=
  ⟨fun _ => rfl, fun _ => rfl, fun _ => rfl, rfl, fun _ _ _ => rfl,
   by decide, fun _ => rfl, fun _ => rfl⟩

/-- Claim C6, counterexample: with an empty token the upload POST still
carries an Authorization header (value "Bearer " followed by nothing),
so the header is not sent only-if the token is non-empty. -/
theorem claim_C6_counterexample :
    ("Authorization", "Bearer ") ∈
      requestHeaders
        (sync_layer_to_server (fun _ => featW) dW "" (HttpResponse.resp 500 none))
  ∧ (sync_layer_to_server (fun _ => featW) dW ""
        (HttpResponse.resp 500 none)).request ≠ none := by
  constructor
  · decide
  · decide

/-- Claim C6, amended: the poll GET sends the Authorization header if
and only if the token is non-empty, while the upload POST always sends
an Authorization header with value "Bearer " followed by the token,
even when the token is empty. -/
theorem claim_C6_amended_thm (token : String) :
    ((token = "" → getHeaders token = [])
  ∧ (token ≠ "" → getHeaders token = [("Authorization", "Bearer " ++ token)]))
  ∧ ("Authorization", "Bearer " ++ token) ∈ postHeaders token := by
  refine ⟨⟨fun h => by simp [getHeaders, h], fun h => by simp [getHeaders, h]⟩, ?_⟩
  simp [postHeaders]

/-- Claim C6, witness: the amended theorem applied at the token "t". -/
theorem claim_C6_witness :
    getHeaders "t" = [("Authorization", "Bearer " ++ "t")]
  ∧ ("Authorization", "Bearer " ++ "t") ∈ postHeaders "t" :=
  ⟨(claim_C6_amended_thm "t").1.2 (by decide), (claim_C6_amended_thm "t").2⟩

/-- Claim C2, counterexample: with a stored hash for "rivers" but no
layer of that name present in the project, a reload whose fetch returns
content with that very hash still rebuilds and adds the layer and does
not report "no changes" — so an equal hash alone does not guarantee the
no-mutation path. -/
theorem claim_C2_counterexample :
    (reload_layer (fun _ => true) stC2 "rivers" (some (7, [1]))).state ≠ stC2
  ∧ (reload_layer (fun _ => true) stC2 "rivers" (some (7, [1]))).message
      ≠ "Layer \x27rivers\x27 no changes found." := by
  constructor
  · decide
  · decide

/-- Claim C2, amended: for a dataset whose layer is present in the
project, a reload whose fetch succeeds with a hash equal to the stored
hash performs no mutation at all and reports "no changes". -/
theorem claim_C2_amended_thm (decode : List Nat → Bool) (st : ProjectState)
    (name : String) (h : Nat) (content : List Nat)
    (hp : name ∈ st.projectLayers)
    (hh : lookupAssoc st.layer_hashes name = some h) :
    reload_layer decode st name (some (h, content)) =
      { state := st, severity := "info",
        message := "Layer \x27" ++ name ++ "\x27 no changes found." } := by
  simp [reload_layer, hp, hh]

/-- Claim C2, witness: the amended theorem applied with the "rivers"
layer present and an equal hash. -/
theorem claim_C2_witness :
    reload_layer (fun _ => true) stC2p "rivers" (some (7, [1])) =
      { state := stC2p, severity := "info",
        message := "Layer \x27" ++ "rivers" ++ "\x27 no changes found." } :=
  claim_C2_amended_thm (fun _ => true) stC2p "rivers" 7 [1] (by decide) (by decide)

/-- Claim C10: when no layer of the dataset's name is present in the
project, a successful fetch rebuilds the layer and adds it to the
project even though the fetched hash equals the stored one, storing the
hash and reporting "updated" rather than "no changes". -/
theorem claim_C10_absent_layer (decode : List Nat → Bool) (st : ProjectState)
    (name : String) (h : Nat) (content : List Nat)
    (hp : name ∉ st.projectLayers)
    (hh : lookupAssoc st.layer_hashes name = some h)
    (hd : decode content = true) :
    (reload_layer decode st name (some (h, content))).state.projectLayers
        = st.projectLayers ++ [name]
  ∧ (reload_layer decode st name (some (h, content))).state.layer_hashes
        = updateAssoc st.layer_hashes name h
  ∧ (reload_layer decode st name (some (h, content))).message
        = "Layer \x27" ++ name ++ "\x27 updated." := by
  refine ⟨?_, ?_, ?_⟩ <;> simp [reload_layer, hp, hh, hd]

/-- Claim C10, witness: the rebuild theorem applied at the state with a
stored hash for "rivers" and no such project layer. -/
theorem claim_C10_witness :
    (reload_layer (fun _ => true) stC2 "rivers" (some (7, [1]))).state.projectLayers
        = stC2.projectLayers ++ ["rivers"]
  ∧ (reload_layer (fun _ => true) stC2 "rivers" (some (7, [1]))).state.layer_hashes
        = updateAssoc stC2.layer_hashes "rivers" 7
  ∧ (reload_layer (fun _ => true) stC2 "rivers" (some (7, [1]))).message
        = "Layer \x27" ++ "rivers" ++ "\x27 updated." :=
  claim_C10_absent_layer (fun _ => true) stC2 "rivers" 7 [1]
    (by decide) (by decide) rfl

/-- Claim C3 (code-bug evaluation): syncing a diff with one added
feature yields a payload declared "FeatureCollection" whose single
feature carries the mode discriminator "add" and omits the deleted id,
but its "type" field is the geometry display string "Point" — not
"Feature" as the wire format requires and as the parallel
`SyncWorker._serialize_feature` in the same file produces. -/
theorem claim_C3_eval :
    requestPayload
        (sync_layer_to_server (fun _ => featW)
          { edited := [], added := [(42, featW)], deleted := [3] } "t"
          (HttpResponse.resp 200 (some (some "ok"))))
      = some { ptype := "FeatureCollection",
               features := [{ ftype := "Point", geometry := "gj",
                              properties := [("name", JVal.jstr "Lake A")],
                              mode := some "add" }] }
  ∧ (serialize_feature featW).ftype ≠ "Feature"
  ∧ (SyncWorker_serialize_feature featW).ftype = "Feature" := by
  refine ⟨?_, ?_, ?_⟩ <;> decide

/-- Claim C9: loading the registry attempts the fetch+decode+attach
sequence for every persisted entry in order, whatever the per-entry
fetch and decode outcomes are — a failure for one entry never aborts
the processing of the remaining entries, and the final state is the
independent fold of the per-entry processing. -/
theorem claim_C9_all_entries_attempted (fetch : String → Option (Nat × List Nat))
    (decode : List Nat → Bool) (st : ProjectState) (entries : List BookmarkEntry) :
    (load_bookmarks fetch decode st entries).2 = entries.map (fun e => e.name)
  ∧ (load_bookmarks fetch decode st entries).1
      = entries.foldl (load_entry fetch decode) st := by
  unfold load_bookmarks
  rw [load_bookmarks_foldl]
  simp

/-- Claim C5: an identifier added during the session and subsequently
edited (geometry or attribute change) before sync keeps its
addition-time snapshot in the added map — later edits never touch it —
its key occurs exactly once among the added keys, so the sync uploads
that snapshot with mode "add" exactly once, and the identifier is part
of the changed-id set that triggers the upload. -/
theorem claim_C5_added_then_edited (layer : Fid → Feature) (d0 : Diff)
    (L : String) (fid : Fid) (snap : Feature) (es : List EditEvent)
    (h0 : lookupAssoc d0.added fid = none)
    (hes : ∀ e ∈ es, isEdit e = true)
    (hed : EditEvent.geometryChanged L fid ∈ es
            ∨ EditEvent.attributeChanged L fid ∈ es) :
    lookupAssoc (applyEvents (onFeatureAdded d0 fid snap) es).added fid = some snap
  ∧ List.count fid
      ((applyEvents (onFeatureAdded d0 fid snap) es).added.map Prod.fst) = 1
  ∧ { serialize_feature snap with mode := some "add" }
      ∈ buildFeatures layer (applyEvents (onFeatureAdded d0 fid snap) es)
  ∧ fid ∈ changedIds (applyEvents (onFeatureAdded d0 fid snap) es) := by
  have hadded : (applyEvents (onFeatureAdded d0 fid snap) es).added
      = updateAssoc d0.added fid snap :=
    applyEvents_added_of_isEdit es (onFeatureAdded d0 fid snap) hes
  have hnot : fid ∉ d0.added.map Prod.fst := (lookupAssoc_eq_none_iff _ _).mp h0
  have hkeys : (applyEvents (onFeatureAdded d0 fid snap) es).added.map Prod.fst
      = d0.added.map Prod.fst ++ [fid] := by
    rw [hadded]
    exact updateAssoc_map_fst_of_lookup_none _ _ _ h0
  refine ⟨?_, ?_, ?_, ?_⟩
  · rw [hadded]
    exact lookupAssoc_updateAssoc_self _ _ _
  · rw [hkeys]
    simp [List.count_append, List.count_eq_zero, hnot]
  · have hmem : (fid, snap) ∈ (applyEvents (onFeatureAdded d0 fid snap) es).added := by
      apply lookupAssoc_mem
      rw [hadded]
      exact lookupAssoc_updateAssoc_self _ _ _
    exact List.mem_append_right _
      (List.mem_map_of_mem (fun p => { serialize_feature p.2 with mode := some "add" }) hmem)
  · apply mem_unionSet_right
    rw [hkeys]
    exact List.mem_append_right _ (List.mem_singleton.mpr rfl)

/-- Claim C5, witness: feature 42 added (snapshot `featW`) and then
geometry-edited; the snapshot survives, its key occurs once among the
added keys, its mode-"add" serialization is in the upload list, and 42
is among the changed ids. -/
theorem claim_C5_witness :
    lookupAssoc (applyEvents (onFeatureAdded Diff.empty 42 featW)
        [EditEvent.geometryChanged "L" 42]).added 42 = some featW
  ∧ List.count 42 ((applyEvents (onFeatureAdded Diff.empty 42 featW)
        [EditEvent.geometryChanged "L" 42]).added.map Prod.fst) = 1
  ∧ { serialize_feature featW with mode := some "add" }
      ∈ buildFeatures (fun _ => featW)
          (applyEvents (onFeatureAdded Diff.empty 42 featW)
            [EditEvent.geometryChanged "L" 42])
  ∧ 42 ∈ changedIds (applyEvents (onFeatureAdded Diff.empty 42 featW)
        [EditEvent.geometryChanged "L" 42]) :=
  claim_C5_added_then_edited (fun _ => featW) Diff.empty "L" 42 featW
    [EditEvent.geometryChanged "L" 42] (by decide) (by decide) (Or.inl (by decide))

/-- Claim C8, counterexample: a geometry edit arriving from the layer
named "B" lands in the single shared tracking state, and a sync run for
a different layer both uploads it (the request carries an update
feature read from that other layer) and clears it — the diff is not
per-dataset. -/
theorem claim_C8_counterexample :
    (sync_layer_to_server (fun _ => featW)
        (applyEvent Diff.empty (EditEvent.geometryChanged "B" 7)) ""
        (HttpResponse.resp 200 (some none))).request
      = some { headers := postHeaders "",
               payload := { ptype := "FeatureCollection",
                            features := [{ serialize_feature featW with
                                             mode := some "update" }] } }
  ∧ (sync_layer_to_server (fun _ => featW)
        (applyEvent Diff.empty (EditEvent.geometryChanged "B" 7)) ""
        (HttpResponse.resp 200 (some none))).diff = Diff.empty := by
  constructor
  · decide
  · decide

/-- Claim C8, amended: the change-tracking diff is a single plugin-wide
state: every handler ignores which layer's signal fired, and a sync
triggered from any one layer clears the entire shared diff on a 200
response. -/
theorem claim_C8_amended_thm (d : Diff) (n1 n2 : String) (fid : Fid)
    (snap : Feature) (layer : Fid → Feature) (token : String)
    (body : Option (Option String)) (hnz : changedIds d ≠ []) :
    applyEvent d (EditEvent.geometryChanged n1 fid)
        = applyEvent d (EditEvent.geometryChanged n2 fid)
  ∧ applyEvent d (EditEvent.attributeChanged n1 fid)
        = applyEvent d (EditEvent.attributeChanged n2 fid)
  ∧ applyEvent d (EditEvent.deleted n1 fid)
        = applyEvent d (EditEvent.deleted n2 fid)
  ∧ applyEvent d (EditEvent.added n1 fid snap)
        = applyEvent d (EditEvent.added n2 fid snap)
  ∧ (sync_layer_to_server layer d token (HttpResponse.resp 200 body)).diff
        = Diff.empty := by
  refine ⟨rfl, rfl, rfl, rfl, ?_⟩
  cases body <;> simp [sync_layer_to_server, hnz]

/-- Claim C8, witness: the amended theorem applied at the concrete
non-empty diff `dW` with layer tags "A" and "B". -/
theorem claim_C8_witness :
    applyEvent dW (EditEvent.geometryChanged "A" 7)
        = applyEvent dW (EditEvent.geometryChanged "B" 7)
  ∧ applyEvent dW (EditEvent.attributeChanged "A" 7)
        = applyEvent dW (EditEvent.attributeChanged "B" 7)
  ∧ applyEvent dW (EditEvent.deleted "A" 7)
        = applyEvent dW (EditEvent.deleted "B" 7)
  ∧ applyEvent dW (EditEvent.added "A" 7 featW)
        = applyEvent dW (EditEvent.added "B" 7 featW)
  ∧ (sync_layer_to_server (fun _ => featW) dW ""
        (HttpResponse.resp 200 (some none))).diff = Diff.empty :=
  claim_C8_amended_thm dW "A" "B" 7 featW (fun _ => featW) "" (some none) (by decide)
